import Mathlib

/-!
Shallow embedding of the myFlix REST API route layer (src/index.js).

The database is modelled as in-memory lists of documents: `List User` for the
Users collection and `List Movie` for the Movies collection.  Each Express
route handler becomes a pure Lean function from the request data and the
current collection state to an HTTP response (and, for writes, the new state).
Mongoose query operators are modelled on lists: `findOne` is `List.find?` on
the filter, `findOneAndUpdate` updates the first matching document and (with
the option new set to true) returns the updated document, `findOneAndRemove`
removes and returns the first matching document, `push` appends to an array
field, and `pull` removes all occurrences of a value from an array field.
-/

set_option autoImplicit false

namespace MyFlix

/-- A parsed JSON request body for the user routes.  A field the client omits
is `none`; `bodyParser.json()` plus property access on `req.body` yields
`undefined` for a missing key, which `none` models. -/
structure ReqBody where
  Username : Option String
  Password : Option String
  Email : Option String
  Birthday : Option String
deriving Repr, DecidableEq

/-- A stored User document (spec section 3; schema lives in models.js).  The
four scalar fields are `Option` because the PUT handler writes them straight
from the request body, so any of them can end up unset. -/
structure User where
  Username : Option String
  Password : Option String
  Email : Option String
  Birthday : Option String
  FavoriteMovies : List String
deriving Repr, DecidableEq

/-- Genre sub-document of a Movie: at least a Name field (spec section 3). -/
structure GenreDoc where
  Name : String
deriving Repr, DecidableEq

/-- Director sub-document of a Movie: at least a Name field (spec section 3). -/
structure DirectorDoc where
  Name : String
deriving Repr, DecidableEq

/-- A stored Movie document (spec section 3). -/
structure Movie where
  Title : String
  Genre : GenreDoc
  Director : DirectorDoc
deriving Repr, DecidableEq

/-- The JSON or text payload a handler sends back. -/
inductive Body where
  | text : String → Body
  | jsonUser : Option User → Body
  | jsonUsers : List User → Body
  | jsonMovies : List Movie → Body
  | jsonGenre : GenreDoc → Body
  | jsonErrors : List String → Body
deriving Repr, DecidableEq

/-- An HTTP response: status code plus body.  `res.json(x)` with no explicit
status is status 200. -/
structure Response where
  status : Nat
  body : Body
deriving Repr, DecidableEq

/-- The CORS allow-list, src/index.js lines 32-33. -/
def allowedOrigins : List String :=
  ["http://localhost:8080", "http://localhost:4200", "http://testsite.com",
   "http://localhost:1234", "https://at-myflix-app.netlify.app", "https://andrew0t.github.io"]

/-- The cors origin callback, src/index.js lines 37-44.  The callback is
invoked as callback(error, allow); we return that pair.  A request with no
Origin header passes `origin = none` and is allowed; an origin off the list
gets an Error and allow = false. -/
def corsOrigin : Option String → Option String × Bool
  | none => (none, true)
  | some origin =>
    if allowedOrigins.contains origin = false then
      (some ("The CORS policy for this application doesn’t allow access from origin " ++ origin),
       false)
    else
      (none, true)

/-- Modelled from the spec: the digest of the salted bcrypt primitive wrapped
by `Users.hashPassword` (models.js, not among the available source files;
spec section 4.1).  The digest is opaque to every route, so an injective tag
suffices. -/
def bcryptHash (plaintext : String) : String := "$2b$10$" ++ plaintext

/-- Modelled from the spec: `Users.hashPassword` is defined in models.js,
which is not among the available source files.  Spec section 4.1 says the
hash always succeeds for any non-empty string; called on an absent value
(`req.body.Password` when the client sent no Password key) the underlying
primitive throws, which the `Except.error` branch models. -/
def hashPassword : Option String → Except String String
  | none => .error "data and salt arguments required"
  | some plaintext => .ok (bcryptHash plaintext)

/-- validator.js isAlphanumeric (external library, modelled): at least one
character, every character an ASCII letter or digit. -/
def isAlphanumericStr (s : String) : Bool :=
  s ≠ "" && s.toList.all fun c => c.isAlpha || c.isDigit

/-- Split a character list at every occurrence of a separator, keeping empty
groups, like splitting a string on a separator character. -/
def splitOnChar (sep : Char) : List Char → List (List Char)
  | [] => [[]]
  | c :: cs =>
    let groups := splitOnChar sep cs
    if c = sep then [] :: groups
    else
      match groups with
      | [] => [[c]]
      | g :: gs => (c :: g) :: gs

/-- validator.js isEmail (external library, modelled, simplified): exactly one
at-sign separating a non-empty local part from a domain of at least two
non-empty dot-separated labels. -/
def isEmailStr (s : String) : Bool :=
  match splitOnChar '@' s.toList with
  | [localPart, domain] =>
    localPart ≠ [] && (splitOnChar '.' domain).length ≥ 2 &&
      (splitOnChar '.' domain).all (· ≠ [])
  | _ => false

/-- The express-validator check chain on POST /users, src/index.js lines
78-82, flattened to the list of failed-check messages in check order.
express-validator coerces an absent field to the empty string before
validating, which `Option.getD ""` models. -/
def validateCreate (b : ReqBody) : List String :=
  (if (b.Username.getD "").length ≥ 5 then [] else ["Username is required"]) ++
  (if isAlphanumericStr (b.Username.getD "") then []
   else ["Username contains non alphanumeric characters - not allowed."]) ++
  (if (b.Password.getD "") ≠ "" then [] else ["Password is required"]) ++
  (if isEmailStr (b.Email.getD "") then [] else ["Email does not appear to be valid"])

/-- `Users.find?` on the filter used throughout index.js:
filter Username equal to a path-parameter string. -/
def findOneUser (username : String) (users : List User) : Option User :=
  users.find? fun u => u.Username = some username

/-- What the POST /users handler produced: the response, the Users collection
afterwards, and whether any database query was issued. -/
structure CreateResult where
  response : Response
  users : List User
  dbQueried : Bool
deriving Repr, DecidableEq

/-- createUser, src/index.js lines 76-116.  Validation result is inspected
first; on any failure the handler returns 422 with the errors array before
hashing and before any query.  Otherwise the password is hashed, a findOne
checks for an existing user with the requested Username, and either 400
(already exists) or a create plus 201 with the created document follows.
A synchronous throw from hashPassword would land in the top-level error
middleware (lines 361-364), a 500 with a generic message. -/
def createUser (b : ReqBody) (users : List User) : CreateResult :=
  let errors := validateCreate b
  if errors.isEmpty = false then
    { response := ⟨422, .jsonErrors errors⟩, users := users, dbQueried := false }
  else
    match hashPassword b.Password with
    | .error _ =>
      { response := ⟨500, .text "There was an error. Please try again."⟩,
        users := users, dbQueried := false }
    | .ok hashedPassword =>
      match users.find? (fun u => u.Username = b.Username) with
      | some _ =>
        { response := ⟨400, .text ((b.Username.getD "") ++ " already exists")⟩,
          users := users, dbQueried := true }
      | none =>
        let newUser : User :=
          { Username := b.Username, Password := some hashedPassword,
            Email := b.Email, Birthday := b.Birthday, FavoriteMovies := [] }
        { response := ⟨201, .jsonUser (some newUser)⟩,
          users := users ++ [newUser], dbQueried := true }

/-- GET /users, src/index.js lines 127-137: on success status 201 (sic) with
the full list; on a database error status 500 with "error:" plus the error. -/
def getUsers : Except String (List User) → Response
  | .ok users => ⟨201, .jsonUsers users⟩
  | .error err => ⟨500, .text ("error:" ++ err)⟩

/-- GET /movies, src/index.js lines 167-177: on success status 201 (sic) with
the full list; on a database error status 500. -/
def getMovies : Except String (List Movie) → Response
  | .ok movies => ⟨201, .jsonMovies movies⟩
  | .error err => ⟨500, .text ("Error: " ++ err)⟩

/-- The message of the TypeError thrown by `movie.Genre` when findOne
matched nothing and `movie` is null. -/
def typeErrorNullGenre : String := "TypeError: Cannot read properties of null (reading Genre)"

/-- getGenre, src/index.js lines 208-218.  findOne on the Genre.Name filter;
the then-callback answers `res.json(movie.Genre)`.  When no movie matches,
`movie` is null, the property access throws, the rejection reaches the
catch, and the handler answers 500 with the stringified error. -/
def getGenre (name : String) (movies : List Movie) : Response :=
  match movies.find? (fun m => m.Genre.Name = name) with
  | none => ⟨500, .text ("Error: " ++ typeErrorNullGenre)⟩
  | some movie => ⟨200, .jsonGenre movie.Genre⟩

/-- Mongoose findOneAndUpdate on a list: rewrite the first document matching
the filter with `f` and, under the option new set to true, return the updated
document; no match returns null and leaves the collection as it was. -/
def findOneAndUpdate (p : User → Bool) (f : User → User) : List User → Option User × List User
  | [] => (none, [])
  | u :: rest =>
    if p u then (some (f u), f u :: rest)
    else
      let r := findOneAndUpdate p f rest
      (r.1, u :: r.2)

/-- The set-document of the PUT /users/:Username handler, src/index.js lines
258-264: all four fields written straight from the request body. -/
def overwriteFields (b : ReqBody) (hashedPassword : String) (u : User) : User :=
  { u with Username := b.Username, Password := some hashedPassword,
           Email := b.Email, Birthday := b.Birthday }

/-- updateUser, src/index.js lines 251-275.  `Users.hashPassword` runs first,
synchronously, on `req.body.Password`; if it throws, the top-level error
middleware answers 500 and no update is issued.  Otherwise findOneAndUpdate
overwrites Username, Password, Email and Birthday of the first user matching
the path parameter and the handler answers `res.json(updatedUser)`. -/
def updateUser (username : String) (b : ReqBody) (users : List User) :
    Response × List User :=
  match hashPassword b.Password with
  | .error _ => (⟨500, .text "There was an error. Please try again."⟩, users)
  | .ok hashedPassword =>
    let r := findOneAndUpdate (fun u => u.Username = some username)
      (overwriteFields b hashedPassword) users
    (⟨200, .jsonUser r.1⟩, r.2)

/-- addFavoriteMovie (POST /users/:Username/movies/:MovieID), src/index.js
lines 286-301: push MovieID onto FavoriteMovies of the matching user and
answer `res.json(updatedUser)` (status 200, null when no user matched). -/
def addFavoriteMovie (username movieId : String) (users : List User) :
    Response × List User :=
  let r := findOneAndUpdate (fun u => u.Username = some username)
    (fun u => { u with FavoriteMovies := u.FavoriteMovies ++ [movieId] }) users
  (⟨200, .jsonUser r.1⟩, r.2)

/-- DELETE /users/:Username/movies/:MovieID, src/index.js lines 312-327:
pull MovieID from FavoriteMovies of the matching user (pull removes every
occurrence) and answer `res.json(updatedUser)`. -/
def pullFavoriteMovie (username movieId : String) (users : List User) :
    Response × List User :=
  let r := findOneAndUpdate (fun u => u.Username = some username)
    (fun u => { u with FavoriteMovies := u.FavoriteMovies.filter (fun m => m ≠ movieId) }) users
  (⟨200, .jsonUser r.1⟩, r.2)

/-- Mongoose findOneAndRemove on a list: delete the first document matching
the filter, returning it; no match returns null. -/
def findOneAndRemove (p : User → Bool) : List User → Option User × List User
  | [] => (none, [])
  | u :: rest =>
    if p u then (some u, rest)
    else
      let r := findOneAndRemove p rest
      (r.1, u :: r.2)

/-- deleteUser, src/index.js lines 337-352: findOneAndRemove on the Username
filter; null answers 400 "was not found.", otherwise 200 "was deleted.". -/
def deleteUser (username : String) (users : List User) : Response × List User :=
  match findOneAndRemove (fun u => u.Username = some username) users with
  | (none, users2) => (⟨400, .text (username ++ " was not found.")⟩, users2)
  | (some _, users2) => (⟨200, .text (username ++ " was deleted.")⟩, users2)

/-! ## Helper lemmas about the list models of the mongoose operations -/

theorem find?_append_of_none {α : Type} {p : α → Bool} :
    ∀ {l1 : List α} (l2 : List α), l1.find? p = none →
      (l1 ++ l2).find? p = l2.find? p := by
  intro l1
  induction l1 with
  | nil => intro l2 _; rfl
  | cons a rest ih =>
    intro l2 h
    cases hp : p a with
    | true => rw [List.find?_cons_of_pos _ hp] at h; exact absurd h (by simp)
    | false =>
      rw [List.find?_cons_of_neg _ (by simp [hp])] at h
      rw [List.cons_append, List.find?_cons_of_neg _ (by simp [hp])]
      exact ih l2 h

theorem findOneAndUpdate_of_none {p : User → Bool} {f : User → User} :
    ∀ {users : List User}, users.find? p = none →
      findOneAndUpdate p f users = (none, users) := by
  intro users
  induction users with
  | nil => intro _; rfl
  | cons u rest ih =>
    intro h
    cases hp : p u with
    | true => rw [List.find?_cons_of_pos _ hp] at h; exact absurd h (by simp)
    | false =>
      rw [List.find?_cons_of_neg _ (by simp [hp])] at h
      simp [findOneAndUpdate, hp, ih h]

theorem findOneAndUpdate_of_some {p : User → Bool} {f : User → User} :
    ∀ {users : List User} {u : User}, users.find? p = some u →
      ∃ pre post, users = pre ++ u :: post ∧
        findOneAndUpdate p f users = (some (f u), pre ++ f u :: post) := by
  intro users
  induction users with
  | nil => intro u h; exact absurd h (by simp)
  | cons v rest ih =>
    intro u h
    cases hp : p v with
    | true =>
      rw [List.find?_cons_of_pos _ hp] at h
      injection h with h
      subst h
      exact ⟨[], rest, rfl, by simp [findOneAndUpdate, hp]⟩
    | false =>
      rw [List.find?_cons_of_neg _ (by simp [hp])] at h
      obtain ⟨pre, post, hsplit, heq⟩ := ih h
      exact ⟨v :: pre, post, by simp [hsplit], by simp [findOneAndUpdate, hp, heq]⟩

theorem findOneAndRemove_of_none {p : User → Bool} :
    ∀ {users : List User}, users.find? p = none →
      findOneAndRemove p users = (none, users) := by
  intro users
  induction users with
  | nil => intro _; rfl
  | cons u rest ih =>
    intro h
    cases hp : p u with
    | true => rw [List.find?_cons_of_pos _ hp] at h; exact absurd h (by simp)
    | false =>
      rw [List.find?_cons_of_neg _ (by simp [hp])] at h
      simp [findOneAndRemove, hp, ih h]

theorem findOneAndRemove_of_some {p : User → Bool} :
    ∀ {users : List User} {u : User}, users.find? p = some u →
      ∃ pre post, users = pre ++ u :: post ∧
        findOneAndRemove p users = (some u, pre ++ post) := by
  intro users
  induction users with
  | nil => intro u h; exact absurd h (by simp)
  | cons v rest ih =>
    intro u h
    cases hp : p v with
    | true =>
      rw [List.find?_cons_of_pos _ hp] at h
      injection h with h
      subst h
      exact ⟨[], rest, rfl, by simp [findOneAndRemove, hp]⟩
    | false =>
      rw [List.find?_cons_of_neg _ (by simp [hp])] at h
      obtain ⟨pre, post, hsplit, heq⟩ := ih h
      exact ⟨v :: pre, post, by simp [hsplit], by simp [findOneAndRemove, hp, heq]⟩

/-! ## Claim theorems -/

/-- Claim C4: for every POST /users request whose body fails validation, the
response is status 422 carrying the JSON array of validation messages, no
database query is issued, and the collection is unchanged: validation is
checked before any write. -/
theorem c4_invalid_input_rejected_before_db (b : ReqBody) (users : List User)
    (hinvalid : validateCreate b ≠ []) :
    (createUser b users).response = ⟨422, .jsonErrors (validateCreate b)⟩ ∧
    (createUser b users).dbQueried = false ∧
    (createUser b users).users = users := by
  have h : (validateCreate b).isEmpty = false := by
    cases hv : validateCreate b with
    | nil => exact absurd hv hinvalid
    | cons a l => rfl
  refine ⟨?_, ?_, ?_⟩ <;> simp [createUser, h]

/-- Concrete instance of C4: a two-character Username with an empty Password
and no Email draws a 422 with the messages array, no query, no state change. -/
theorem c4_invalid_input_rejected_before_db_witness :
    (createUser ⟨some "ab", some "", none, none⟩ []).response =
      ⟨422, .jsonErrors (validateCreate ⟨some "ab", some "", none, none⟩)⟩ ∧
    (createUser ⟨some "ab", some "", none, none⟩ []).dbQueried = false ∧
    (createUser ⟨some "ab", some "", none, none⟩ []).users = [] :=
  c4_invalid_input_rejected_before_db ⟨some "ab", some "", none, none⟩ [] (by decide)

/-- Claim C5: DELETE /users/:Username answers 400 with a "was not found."
message when no user matches (state untouched), and 200 with a deletion
message when one does, removing the first matching user from the
collection. -/
theorem c5_delete_user_found_and_absent (username : String) (users : List User) :
    (findOneUser username users = none →
      deleteUser username users = (⟨400, .text (username ++ " was not found.")⟩, users)) ∧
    (∀ u, findOneUser username users = some u →
      (deleteUser username users).1 = ⟨200, .text (username ++ " was deleted.")⟩ ∧
      ∃ pre post, users = pre ++ u :: post ∧
        (deleteUser username users).2 = pre ++ post) := by
  constructor
  · intro h
    have h2 : users.find? (fun u => u.Username = some username) = none := h
    have := findOneAndRemove_of_none h2
    simp [deleteUser, this]
  · intro u h
    have h2 : users.find? (fun u => u.Username = some username) = some u := h
    obtain ⟨pre, post, hsplit, heq⟩ := findOneAndRemove_of_some h2
    exact ⟨by simp [deleteUser, heq], pre, post, hsplit, by simp [deleteUser, heq]⟩

/-- A sample stored user shared by several concrete instances below. -/
def aliceUser : User :=
  { Username := some "alice1", Password := some (bcryptHash "pw"),
    Email := some "a@b.com", Birthday := none, FavoriteMovies := [] }

/-- Concrete instance of C5: deleting an absent user answers 400 and leaves
the collection alone; deleting a present one answers 200. -/
theorem c5_delete_user_found_and_absent_witness :
    deleteUser "bob" [aliceUser] = (⟨400, .text ("bob" ++ " was not found.")⟩, [aliceUser]) ∧
    (deleteUser "alice1" [aliceUser]).1 = ⟨200, .text ("alice1" ++ " was deleted.")⟩ :=
  ⟨(c5_delete_user_found_and_absent "bob" [aliceUser]).1 (by decide),
   ((c5_delete_user_found_and_absent "alice1" [aliceUser]).2 aliceUser (by decide)).1⟩

/-- Claim C7: a successful GET /users answers status 201 (non-standard) with
the list of all users, and a successful GET /movies answers status 201 with
the list of all movies. -/
theorem c7_list_reads_status_201 (users : List User) (movies : List Movie)
    (dbUsers : Except String (List User)) (dbMovies : Except String (List Movie))
    (hu : dbUsers = .ok users) (hm : dbMovies = .ok movies) :
    getUsers dbUsers = ⟨201, .jsonUsers users⟩ ∧
    getMovies dbMovies = ⟨201, .jsonMovies movies⟩ := by
  subst hu hm
  exact ⟨rfl, rfl⟩

/-- Concrete instance of C7 on a one-user collection and an empty movie
collection. -/
theorem c7_list_reads_status_201_witness :
    getUsers (.ok [aliceUser]) = ⟨201, .jsonUsers [aliceUser]⟩ ∧
    getMovies (.ok []) = ⟨201, .jsonMovies []⟩ :=
  c7_list_reads_status_201 [aliceUser] [] _ _ rfl rfl

/-- Claim C8: the CORS origin callback allows a request with no Origin header
and a request whose origin is on the allow-list, and answers every other
origin with an Error and allow set to false. -/
theorem c8_cors_policy (origin : Option String) :
    (origin = none → corsOrigin origin = (none, true)) ∧
    (∀ o, origin = some o → o ∈ allowedOrigins → corsOrigin origin = (none, true)) ∧
    (∀ o, origin = some o → o ∉ allowedOrigins →
      (corsOrigin origin).1 =
        some ("The CORS policy for this application doesn’t allow access from origin " ++ o) ∧
      (corsOrigin origin).2 = false) := by
  refine ⟨?_, ?_, ?_⟩
  · rintro rfl
    rfl
  · rintro o rfl ho
    simp [corsOrigin, ho]
  · rintro o rfl ho
    simp [corsOrigin, ho]

/-- Concrete instance of C8: no Origin header allowed, a listed origin
allowed, an unlisted origin refused. -/
theorem c8_cors_policy_witness :
    corsOrigin none = (none, true) ∧
    corsOrigin (some "http://localhost:8080") = (none, true) ∧
    (corsOrigin (some "http://evil.example")).2 = false :=
  ⟨(c8_cors_policy none).1 rfl,
   (c8_cors_policy (some "http://localhost:8080")).2.1 _ rfl (by decide),
   ((c8_cors_policy (some "http://evil.example")).2.2 _ rfl (by decide)).2⟩

/-- Claim C9: POST and DELETE on /users/:Username/movies/:MovieID for an
absent Username both answer status 200 with a null JSON body and leave the
collection unchanged; nothing distinguishes the absent-user case from
success by status code. -/
theorem c9_favorites_absent_user (username movieId : String) (users : List User)
    (habsent : findOneUser username users = none) :
    addFavoriteMovie username movieId users = (⟨200, .jsonUser none⟩, users) ∧
    pullFavoriteMovie username movieId users = (⟨200, .jsonUser none⟩, users) := by
  have h2 : users.find? (fun u => u.Username = some username) = none := habsent
  constructor
  · have := findOneAndUpdate_of_none
      (f := fun u => { u with FavoriteMovies := u.FavoriteMovies ++ [movieId] }) h2
    simp only [addFavoriteMovie]
    rw [this]
  · have := findOneAndUpdate_of_none
      (f := fun u => { u with FavoriteMovies := u.FavoriteMovies.filter (fun m => m ≠ movieId) }) h2
    simp only [pullFavoriteMovie]
    rw [this]

/-- Concrete instance of C9: pushing and pulling a favorite for an unknown
user both answer 200 with null. -/
theorem c9_favorites_absent_user_witness :
    addFavoriteMovie "ghost" "m1" [aliceUser] = (⟨200, .jsonUser none⟩, [aliceUser]) ∧
    pullFavoriteMovie "ghost" "m1" [aliceUser] = (⟨200, .jsonUser none⟩, [aliceUser]) :=
  c9_favorites_absent_user "ghost" "m1" [aliceUser] (by decide)

/-- Claim C10: PUT /users/:Username hashes req.body.Password before issuing
the update; with no Password in the body the hash step fails first, the
response is the generic 500 of the error middleware, and the collection is
unchanged: no update is attempted. -/
theorem c10_update_missing_password (username : String) (b : ReqBody) (users : List User)
    (hnone : b.Password = none) :
    (updateUser username b users).1 = ⟨500, .text "There was an error. Please try again."⟩ ∧
    (updateUser username b users).2 = users := by
  constructor <;> simp [updateUser, hnone, hashPassword]

/-- Concrete instance of C10: a body without Password leaves the stored user
untouched and draws the generic 500. -/
theorem c10_update_missing_password_witness :
    (updateUser "alice1" ⟨some "alice1", none, none, none⟩ [aliceUser]).1 =
      ⟨500, .text "There was an error. Please try again."⟩ ∧
    (updateUser "alice1" ⟨some "alice1", none, none, none⟩ [aliceUser]).2 = [aliceUser] :=
  c10_update_missing_password "alice1" ⟨some "alice1", none, none, none⟩ [aliceUser] rfl

/-! ## Push and pull round trip (C1) -/

theorem findOneAndUpdate_push_pull (username movieId : String) :
    ∀ (users : List User),
      (∀ u ∈ users, u.Username = some username → movieId ∉ u.FavoriteMovies) →
      (findOneAndUpdate (fun u => u.Username = some username)
        (fun u => { u with FavoriteMovies := u.FavoriteMovies.filter (fun m => m ≠ movieId) })
        ((findOneAndUpdate (fun u => u.Username = some username)
          (fun u => { u with FavoriteMovies := u.FavoriteMovies ++ [movieId] }) users).2)).2
      = users := by
  intro users
  induction users with
  | nil => intro _; rfl
  | cons u rest ih =>
    intro h
    obtain ⟨un, pw, em, bd, fav⟩ := u
    by_cases hu : un = some username
    · subst hu
      have hm : movieId ∉ fav :=
        h ⟨some username, pw, em, bd, fav⟩ (List.mem_cons_self _ _) rfl
      have hne : ∀ a ∈ fav, ¬ a = movieId := fun a ha heq => hm (heq ▸ ha)
      simp [findOneAndUpdate, List.filter_append, List.filter_eq_self]
      exact hne
    · have h2 : ∀ v ∈ rest, v.Username = some username → movieId ∉ v.FavoriteMovies :=
        fun v hv => h v (List.mem_cons_of_mem _ hv)
      have ih2 := ih h2
      simp only [ne_eq, decide_not] at ih2
      simp [findOneAndUpdate, hu, ih2]

/-- A user who already lists movie m1 among the favorites. -/
def c1User : User :=
  { Username := some "carol", Password := some (bcryptHash "pw"),
    Email := none, Birthday := none, FavoriteMovies := ["m1"] }

/-- Claim C1 as stated is false on the code: when the movie id already occurs
in FavoriteMovies, push followed by pull does not restore the original
sequence, because pull removes every occurrence, the pre-existing one
included. -/
theorem c1_push_pull_counterexample :
    (pullFavoriteMovie "carol" "m1" (addFavoriteMovie "carol" "m1" [c1User]).2).2
      ≠ [c1User] := by
  decide

/-- Claim C1 (amended): pushFavorite followed by pullFavorite with the same
movie id restores the original FavoriteMovies sequence provided the movie id
does not already occur in the FavoriteMovies of any user carrying that
Username. -/
theorem c1_push_pull_roundtrip (username movieId : String) (users : List User)
    (h : ∀ u ∈ users, u.Username = some username → movieId ∉ u.FavoriteMovies) :
    (pullFavoriteMovie username movieId
      (addFavoriteMovie username movieId users).2).2 = users := by
  have := findOneAndUpdate_push_pull username movieId users h
  simp only [addFavoriteMovie, pullFavoriteMovie]
  exact this

/-- Concrete instance of the amended C1: pushing then pulling a movie id the
user did not list leaves the collection exactly as it was. -/
theorem c1_push_pull_roundtrip_witness :
    (pullFavoriteMovie "carol" "m2" (addFavoriteMovie "carol" "m2" [c1User]).2).2
      = [c1User] :=
  c1_push_pull_roundtrip "carol" "m2" [c1User] (by decide)

/-! ## Duplicate registration (C2) -/

theorem validateCreate_password (b : ReqBody) (hv : validateCreate b = []) :
    ∃ p, b.Password = some p := by
  cases hb : b.Password with
  | some p => exact ⟨p, rfl⟩
  | none =>
    exfalso
    unfold validateCreate at hv
    rw [hb] at hv
    simp at hv

/-- The document created by the success branch of POST /users. -/
def createdUser (b : ReqBody) (p : String) : User :=
  { Username := b.Username, Password := some (bcryptHash p),
    Email := b.Email, Birthday := b.Birthday, FavoriteMovies := [] }

theorem createUser_fresh (b : ReqBody) (users : List User) (p : String)
    (hv : validateCreate b = []) (hp : b.Password = some p)
    (hfresh : users.find? (fun u => u.Username = b.Username) = none) :
    createUser b users =
      { response := ⟨201, .jsonUser (some (createdUser b p))⟩,
        users := users ++ [createdUser b p], dbQueried := true } := by
  simp [createUser, createdUser, hv, hp, hashPassword, hfresh]

theorem createUser_taken (b : ReqBody) (users : List User) (p : String)
    (hv : validateCreate b = []) (hp : b.Password = some p)
    (u : User) (htaken : users.find? (fun v => v.Username = b.Username) = some u) :
    createUser b users =
      { response := ⟨400, .text ((b.Username.getD "") ++ " already exists")⟩,
        users := users, dbQueried := true } := by
  simp [createUser, hv, hp, hashPassword, htaken]

/-- Claim C2: starting from a collection where the Username is free, two
sequential valid POST /users registrations with the same Username yield 201
for the first and 400 with an "already exists" message for the second, and
the second creates no new user record. -/
theorem c2_duplicate_registration (b1 b2 : ReqBody) (users : List User)
    (hsame : b1.Username = b2.Username)
    (hv1 : validateCreate b1 = []) (hv2 : validateCreate b2 = [])
    (hfresh : users.find? (fun u => u.Username = b1.Username) = none) :
    (createUser b1 users).response.status = 201 ∧
    (createUser b2 (createUser b1 users).users).response =
      ⟨400, .text ((b2.Username.getD "") ++ " already exists")⟩ ∧
    (createUser b2 (createUser b1 users).users).users = (createUser b1 users).users := by
  obtain ⟨p1, hp1⟩ := validateCreate_password b1 hv1
  obtain ⟨p2, hp2⟩ := validateCreate_password b2 hv2
  have h1 := createUser_fresh b1 users p1 hv1 hp1 hfresh
  have hfresh2 : users.find? (fun u => u.Username = b2.Username) = none := by
    rw [← hsame]
    exact hfresh
  have hfind2 : (users ++ [createdUser b1 p1]).find? (fun u => u.Username = b2.Username)
      = some (createdUser b1 p1) := by
    rw [find?_append_of_none _ hfresh2]
    simp [createdUser, hsame]
  have h2 := createUser_taken b2 (users ++ [createdUser b1 p1]) p2 hv2 hp2 _ hfind2
  rw [h1]
  refine ⟨rfl, ?_, ?_⟩
  · show (createUser b2 (users ++ [createdUser b1 p1])).response = _
    rw [h2]
  · show (createUser b2 (users ++ [createdUser b1 p1])).users = users ++ [createdUser b1 p1]
    rw [h2]

/-- Concrete instance of C2: registering abcde twice on an empty collection
answers 201, then 400 with the duplicate message, and stores one document. -/
theorem c2_duplicate_registration_witness :
    (createUser ⟨some "abcde", some "pw", some "a@b.com", none⟩ []).response.status = 201 ∧
    (createUser ⟨some "abcde", some "pw", some "a@b.com", none⟩
        (createUser ⟨some "abcde", some "pw", some "a@b.com", none⟩ []).users).response =
      ⟨400, .text ("abcde" ++ " already exists")⟩ ∧
    (createUser ⟨some "abcde", some "pw", some "a@b.com", none⟩
        (createUser ⟨some "abcde", some "pw", some "a@b.com", none⟩ []).users).users =
      (createUser ⟨some "abcde", some "pw", some "a@b.com", none⟩ []).users :=
  c2_duplicate_registration _ _ [] rfl (by decide) (by decide) rfl

/-! ## Full-overwrite update semantics (C3) -/

/-- A PUT body that omits Email and Birthday. -/
def c3Body : ReqBody := ⟨some "alice1", some "pw2", none, none⟩

/-- Claim C3: PUT /users/:Username overwrites the stored Username, Password
(hashed), Email and Birthday unconditionally from the request body, so a
field the client omits is nulled out in the stored user. -/
theorem c3_update_overwrites_all_fields (username : String) (b : ReqBody) (users : List User)
    (p : String) (hp : b.Password = some p) (u : User)
    (hfound : findOneUser username users = some u) :
    (updateUser username b users).1 =
      ⟨200, .jsonUser (some (overwriteFields b (bcryptHash p) u))⟩ ∧
    (∃ pre post, users = pre ++ u :: post ∧
      (updateUser username b users).2 = pre ++ overwriteFields b (bcryptHash p) u :: post) ∧
    (overwriteFields b (bcryptHash p) u).Username = b.Username ∧
    (overwriteFields b (bcryptHash p) u).Password = some (bcryptHash p) ∧
    (overwriteFields b (bcryptHash p) u).Email = b.Email ∧
    (overwriteFields b (bcryptHash p) u).Birthday = b.Birthday := by
  have h2 : users.find? (fun v => v.Username = some username) = some u := hfound
  obtain ⟨pre, post, hsplit, heq⟩ :=
    findOneAndUpdate_of_some (f := overwriteFields b (bcryptHash p)) h2
  refine ⟨?_, ⟨pre, post, hsplit, ?_⟩, rfl, rfl, rfl, rfl⟩ <;>
    simp [updateUser, hp, hashPassword, heq]

/-- Concrete instance of C3: a body omitting Email nulls out the Email the
stored user had. -/
theorem c3_update_overwrites_all_fields_witness :
    (updateUser "alice1" c3Body [aliceUser]).1 =
      ⟨200, .jsonUser (some (overwriteFields c3Body (bcryptHash "pw2") aliceUser))⟩ ∧
    (∃ pre post, [aliceUser] = pre ++ aliceUser :: post ∧
      (updateUser "alice1" c3Body [aliceUser]).2 =
        pre ++ overwriteFields c3Body (bcryptHash "pw2") aliceUser :: post) ∧
    (overwriteFields c3Body (bcryptHash "pw2") aliceUser).Username = some "alice1" ∧
    (overwriteFields c3Body (bcryptHash "pw2") aliceUser).Password =
      some (bcryptHash "pw2") ∧
    (overwriteFields c3Body (bcryptHash "pw2") aliceUser).Email = none ∧
    (overwriteFields c3Body (bcryptHash "pw2") aliceUser).Birthday = none :=
  c3_update_overwrites_all_fields "alice1" c3Body [aliceUser] "pw2" rfl aliceUser (by decide)

/-! ## Genre lookup (C6) -/

/-- Claim C6: GET /movies/genres/:Name answers an error response (the 500
from the thrown null property access), never 200 with a null genre, when no
movie carries the genre name; when one does, it answers 200 with the Genre
sub-document of the first matching movie. -/
theorem c6_genre_lookup (name : String) (movies : List Movie) :
    (movies.find? (fun m => m.Genre.Name = name) = none →
      (getGenre name movies).status = 500 ∧
      ∀ g, getGenre name movies ≠ ⟨200, .jsonGenre g⟩) ∧
    (∀ m, movies.find? (fun m2 => m2.Genre.Name = name) = some m →
      getGenre name movies = ⟨200, .jsonGenre m.Genre⟩) := by
  constructor
  · intro h
    refine ⟨by simp [getGenre, h], fun g => by simp [getGenre, h]⟩
  · intro m h
    simp [getGenre, h]

/-- A sample movie with genre Drama. -/
def dramaMovie : Movie :=
  { Title := "T", Genre := { Name := "Drama" }, Director := { Name := "D" } }

/-- Concrete instance of C6: no movie on an empty collection has genre Drama,
so the handler answers 500; with a matching movie it answers 200 and that
movie has Genre sub-document. -/
theorem c6_genre_lookup_witness :
    (getGenre "Drama" []).status = 500 ∧
    getGenre "Drama" [dramaMovie] = ⟨200, .jsonGenre dramaMovie.Genre⟩ :=
  ⟨((c6_genre_lookup "Drama" []).1 rfl).1,
   (c6_genre_lookup "Drama" [dramaMovie]).2 dramaMovie (by decide)⟩

end MyFlix
